import Mathlib

/-!
Shallow embedding of the expense-tracking API (`src/app/views.py`, `src/app/models.py`).

The process state consists of the ORM-backed tables for users and categories
(`dbUsers`, `dbCategories`), the module-level in-memory dictionaries `users`,
`categories`, `records`, and the module-level counter `next_record_id`.
Records live only in the in-memory dictionary: `create_record` writes to
`records` and never to the database.  JSON scalar values are modelled by
`Json`, with Python truthiness (`pyTruthy`) and Python `==`/dict-key
equality against integer keys (`pyEqInt`).  Each Flask handler becomes a
Lean function returning `Except (Int × String) _` (error status and
message) together with the successor state.
-/

namespace LR3

/-- Scalar JSON values as they appear in request bodies. -/
inductive Json where
  | null : Json
  | bool : Bool → Json
  | num : ℚ → Json
  | str : String → Json
  deriving DecidableEq, Repr

/-- Python truthiness of a scalar JSON value (`if not x`). -/
def pyTruthy : Json → Bool
  | .null => false
  | .bool b => b
  | .num q => q != 0
  | .str s => s != ""

/-- Python `==` between a scalar JSON value and an `int` (dict keys are ints;
`1.0 == 1` and `True == 1` hold in Python). -/
def pyEqInt : Json → Int → Bool
  | .num q, n => q == (n : ℚ)
  | .bool b, n => (if b then (1 : Int) else 0) == n
  | .null, _ => false
  | .str _, _ => false

/-- Dictionary lookup on an association list with integer keys (`d.get(k)`). -/
def lookupD {α : Type} : List (Int × α) → Int → Option α
  | [], _ => none
  | p :: t, k => if p.1 = k then some p.2 else lookupD t k

/-- Key membership (`k in d`). -/
def memD {α : Type} (m : List (Int × α)) (k : Int) : Bool :=
  (lookupD m k).isSome

/-- Dictionary deletion (`d.pop(k, None)` / `del d[k]`). -/
def eraseD {α : Type} : List (Int × α) → Int → List (Int × α)
  | [], _ => []
  | p :: t, k => if p.1 = k then eraseD t k else p :: eraseD t k

/-- Python `json_value in d` for a dict with integer keys. -/
def pyMemInt {α : Type} (m : List (Int × α)) (v : Json) : Bool :=
  m.any (fun p => pyEqInt v p.1)

/-- The next primary key handed out by the database for a table:
SQLite assigns `max(existing ids, 0) + 1`. -/
def freshId {α : Type} (m : List (Int × α)) : Int :=
  m.foldl (fun a p => max a p.1) 0 + 1

/-- Field lookup in a JSON request body (`data.get(f)`). -/
def getJ : List (String × Json) → String → Option Json
  | [], _ => none
  | p :: t, k => if p.1 = k then some p.2 else getJ t k

/-- Field presence in a JSON request body (`f in data`). -/
def hasK (data : List (String × Json)) (k : String) : Bool :=
  (getJ data k).isSome

/-- A stored expense record, as built by `create_record`. -/
structure Rec where
  id : Int
  user_id : Json
  category_id : Json
  created_at : Json
  amount : ℚ
  deriving DecidableEq, Repr

/-- The whole process state of `app/views.py`. -/
structure AppState where
  dbUsers : List (Int × Json)
  dbCategories : List (Int × Json)
  users : List (Int × Json)
  categories : List (Int × Json)
  records : List (Int × Rec)
  next_record_id : Int
  deriving DecidableEq, Repr

/-- Fresh process with an empty database. -/
def initState : AppState :=
  { dbUsers := [], dbCategories := [], users := [], categories := [],
    records := [], next_record_id := 1 }

/-- Error responses carry an HTTP status code and a message
(`error_response` in the source). -/
abbrev Err := Int × String

/-- `GET /user/<id>`. -/
def get_user (s : AppState) (user_id : Int) : Except Err (Int × Json) :=
  match lookupD s.dbUsers user_id with
  | none => .error (404, "User not found")
  | some name => .ok (user_id, name)

/-- `DELETE /user/<id>`: remove the user from the database and the mirror
dict, then drop every in-memory record whose `user_id` equals the deleted id. -/
def delete_user (s : AppState) (user_id : Int) : Except Err String × AppState :=
  match lookupD s.dbUsers user_id with
  | none => (.error (404, "User not found"), s)
  | some _ =>
    (.ok "deleted",
      { s with
        dbUsers := eraseD s.dbUsers user_id,
        users := eraseD s.users user_id,
        records := s.records.filter (fun p => !(pyEqInt p.2.user_id user_id)) })

/-- `POST /user`. -/
def create_user (s : AppState) (data : List (String × Json)) :
    Except Err (Int × Json) × AppState :=
  match getJ data "name" with
  | none => (.error (400, "Field \x27name\x27 is required"), s)
  | some name =>
    if pyTruthy name then
      (.ok (freshId s.dbUsers, name),
        { s with
          dbUsers := s.dbUsers ++ [(freshId s.dbUsers, name)],
          users := s.users ++ [(freshId s.dbUsers, name)] })
    else (.error (400, "Field \x27name\x27 is required"), s)

/-- Insertion into a list sorted by key ascending. -/
def insertById (p : Int × Json) : List (Int × Json) → List (Int × Json)
  | [] => [p]
  | q :: t => if p.1 ≤ q.1 then p :: q :: t else q :: insertById p t

/-- Sort a table by id ascending (`order_by(id.asc())`). -/
def sortById (l : List (Int × Json)) : List (Int × Json) :=
  l.foldr insertById []

/-- `GET /users`. -/
def list_users (s : AppState) : List (Int × Json) :=
  sortById s.dbUsers

/-- `GET /category`: list the categories and rebuild the in-memory mirror. -/
def list_categories (s : AppState) : List (Int × Json) × AppState :=
  (sortById s.dbCategories, { s with categories := sortById s.dbCategories })

/-- Does a category with this exact name already exist (the `unique=True`
constraint on `Category.name` that makes `commit` raise)? -/
def catNameExists (s : AppState) (n : Json) : Bool :=
  s.dbCategories.any (fun p => p.2 == n)

/-- `POST /category`. -/
def create_category (s : AppState) (data : List (String × Json)) :
    Except Err (Int × Json) × AppState :=
  match getJ data "name" with
  | none => (.error (400, "Field \x27name\x27 is required"), s)
  | some name =>
    if pyTruthy name then
      if catNameExists s name then
        (.error (400, "Category with this name already exists"), s)
      else
        (.ok (freshId s.dbCategories, name),
          { s with
            dbCategories := s.dbCategories ++ [(freshId s.dbCategories, name)],
            categories := s.categories ++ [(freshId s.dbCategories, name)] })
    else (.error (400, "Field \x27name\x27 is required"), s)

/-- `DELETE /category?id=` once the id has been parsed: on success the
category and all records in it are removed. -/
def delete_category_byid (s : AppState) (cid : Int) :
    Except Err String × AppState :=
  match lookupD s.dbCategories cid with
  | none => (.error (404, "Category not found"), s)
  | some _ =>
    (.ok "deleted",
      { s with
        dbCategories := eraseD s.dbCategories cid,
        categories := eraseD s.categories cid,
        records := s.records.filter (fun p => !(pyEqInt p.2.category_id cid)) })

/-- `DELETE /category?id=`: the id comes from the query string and may be
absent. -/
def delete_category (s : AppState) (category_id : Option Int) :
    Except Err String × AppState :=
  match category_id with
  | none => (.error (400, "Query parameter \x27id\x27 is required"), s)
  | some cid => delete_category_byid s cid

/-- Value of a run of decimal digit characters. -/
def digitsVal (l : List Char) : Nat :=
  l.foldl (fun a c => a * 10 + (c.toNat - 48)) 0

/-- Parse an unsigned decimal literal (`"12"`, `"12.50"`, `".5"`, `"5."`). -/
def parseDecCore (l : List Char) : Option ℚ :=
  match l.dropWhile (fun c => c != '.') with
  | [] =>
    if !l.isEmpty && l.all Char.isDigit then some (digitsVal l) else none
  | _ :: fp =>
    if fp.contains '.' then none
    else if (!(l.takeWhile (fun c => c != '.')).isEmpty || !fp.isEmpty)
        && (l.takeWhile (fun c => c != '.')).all Char.isDigit
        && fp.all Char.isDigit then
      some ((digitsVal (l.takeWhile (fun c => c != '.')) : ℚ)
        + (digitsVal fp : ℚ) / (10 : ℚ) ^ fp.length)
    else none

/-- Parse an optionally signed decimal literal. -/
def parseDec (s : String) : Option ℚ :=
  match s.toList with
  | '-' :: t => (parseDecCore t).map (fun q => -q)
  | '+' :: t => parseDecCore t
  | t => parseDecCore t

/-- Python `float(x)` on a scalar JSON value: numbers and booleans convert,
decimal strings parse, everything else raises (`None` gives `TypeError`,
bad strings `ValueError`). -/
def pyFloat : Json → Option ℚ
  | .num q => some q
  | .bool b => some (if b then 1 else 0)
  | .str s => parseDec s
  | .null => none

/-- `GET /record/<id>`. -/
def get_record (s : AppState) (record_id : Int) : Except Err Rec :=
  match lookupD s.records record_id with
  | none => .error (404, "Record not found")
  | some r => .ok r

/-- `DELETE /record/<id>`. -/
def delete_record (s : AppState) (record_id : Int) : Except Err String × AppState :=
  if memD s.records record_id then
    (.ok "deleted", { s with records := eraseD s.records record_id })
  else (.error (404, "Record not found"), s)

/-- The required fields of `POST /record`. -/
def required_fields : List String := ["user_id", "category_id", "amount"]

/-- The required fields absent from the request body, in order. -/
def missingFields (data : List (String × Json)) : List String :=
  required_fields.filter (fun f => !hasK data f)

/-- `", ".join(missing)`. -/
def joinComma : List String → String
  | [] => ""
  | [x] => x
  | x :: t => x ++ ", " ++ joinComma t

/-- The record stored by a successful `create_record`: id from the counter,
`user_id`/`category_id` as supplied, `created_at` as supplied when truthy
and the current UTC time string otherwise. -/
def mkRec (s : AppState) (data : List (String × Json)) (now : String)
    (amount : ℚ) : Rec :=
  { id := s.next_record_id,
    user_id := (getJ data "user_id").getD .null,
    category_id := (getJ data "category_id").getD .null,
    created_at :=
      match getJ data "created_at" with
      | some v => if pyTruthy v then v else .str now
      | none => .str now,
    amount := amount }

/-- `POST /record`: presence of the three required fields, then existence of
the referenced user and category in the in-memory dicts, then `float(amount)`;
on success the record is stored under `next_record_id` and the counter is
incremented.  `now` is the current UTC time string. -/
def create_record (s : AppState) (data : List (String × Json)) (now : String) :
    Except Err Rec × AppState :=
  if missingFields data = [] then
    if pyMemInt s.users ((getJ data "user_id").getD .null) then
      if pyMemInt s.categories ((getJ data "category_id").getD .null) then
        match pyFloat ((getJ data "amount").getD .null) with
        | some amount =>
          (.ok (mkRec s data now amount),
            { s with
              records := s.records ++ [(s.next_record_id, mkRec s data now amount)],
              next_record_id := s.next_record_id + 1 })
        | none => (.error (400, "Field \x27amount\x27 must be a number"), s)
      else (.error (400, "Category does not exist"), s)
    else (.error (400, "User does not exist"), s)
  else (.error (400, "Missing fields: " ++ joinComma (missingFields data)), s)

/-- Does a record pass an optional integer query-string filter? -/
def matchFilter (f : Option Int) (v : Json) : Bool :=
  match f with
  | some u => pyEqInt v u
  | none => true

/-- The records matching both optional filters, in insertion order. -/
def resultList (s : AppState) (user_id category_id : Option Int) : List Rec :=
  (s.records.map Prod.snd).filter
    (fun r => matchFilter user_id r.user_id && matchFilter category_id r.category_id)

/-- `GET /record?user_id=&category_id=`. -/
def list_records (s : AppState) (user_id category_id : Option Int) :
    Except Err (List Rec) :=
  match user_id, category_id with
  | none, none =>
    .error (400, "At least one of \x27user_id\x27 or \x27category_id\x27 must be provided")
  | _, _ => .ok (resultList s user_id category_id)

/-- One API call, with the nondeterministic inputs (request body, query
parameters, current time) made explicit. -/
inductive Op where
  | createUser : List (String × Json) → Op
  | deleteUser : Int → Op
  | createCategory : List (String × Json) → Op
  | deleteCategory : Option Int → Op
  | listCategories : Op
  | createRecord : List (String × Json) → String → Op
  | deleteRecord : Int → Op

/-- The state after handling one API call. -/
def stepOp (s : AppState) : Op → AppState
  | .createUser d => (create_user s d).2
  | .deleteUser i => (delete_user s i).2
  | .createCategory d => (create_category s d).2
  | .deleteCategory i => (delete_category s i).2
  | .listCategories => (list_categories s).2
  | .createRecord d now => (create_record s d now).2
  | .deleteRecord i => (delete_record s i).2

/-- States reachable from a fresh process by some sequence of API calls. -/
inductive Reachable : AppState → Prop where
  | init : Reachable initState
  | next {s : AppState} (op : Op) : Reachable s → Reachable (stepOp s op)

/-- The record ids handed out by one API call (empty unless the call is a
successful `create_record`). -/
def assignedOf (s : AppState) : Op → List Int
  | .createRecord d now =>
    match (create_record s d now).1 with
    | .ok r => [r.id]
    | .error _ => []
  | .createUser _ => []
  | .deleteUser _ => []
  | .createCategory _ => []
  | .deleteCategory _ => []
  | .listCategories => []
  | .deleteRecord _ => []

/-- The record ids handed out by the successful `create_record` calls of a
call sequence, in chronological order. -/
def assignedIds (s : AppState) : List Op → List Int
  | [] => []
  | op :: t => assignedOf s op ++ assignedIds (stepOp s op) t

/-- No record in the list references the given user id. -/
def noUserRefs (l : List (Int × Rec)) (uid : Int) : Bool :=
  l.all (fun p => !(pyEqInt p.2.user_id uid))

/-- No record in the list references the given category id. -/
def noCatRefs (l : List (Int × Rec)) (cid : Int) : Bool :=
  l.all (fun p => !(pyEqInt p.2.category_id cid))

/-- Store invariant: every stored record is keyed by its own id and its id is
below the counter. -/
def RecInv (s : AppState) : Prop :=
  ∀ p ∈ s.records, p.2.id = p.1 ∧ p.2.id < s.next_record_id

/-! ### Dictionary lemmas -/

theorem lookupD_eraseD_self {α : Type} (m : List (Int × α)) (k : Int) :
    lookupD (eraseD m k) k = none := by
  induction m with
  | nil => rfl
  | cons p t ih =>
    by_cases h : p.1 = k
    · simpa [eraseD, h] using ih
    · simp [eraseD, h, lookupD, ih]

theorem mem_eraseD {α : Type} {m : List (Int × α)} {k : Int} {p : Int × α}
    (h : p ∈ eraseD m k) : p ∈ m := by
  induction m with
  | nil => simp [eraseD] at h
  | cons q t ih =>
    by_cases hq : q.1 = k
    · rw [eraseD, if_pos hq] at h
      exact List.mem_cons_of_mem _ (ih h)
    · rw [eraseD, if_neg hq] at h
      rcases List.mem_cons.mp h with h | h
      · exact h ▸ List.mem_cons_self _ _
      · exact List.mem_cons_of_mem _ (ih h)

theorem all_filter_self {α : Type} (l : List α) (f : α → Bool) :
    (l.filter f).all f = true := by
  rw [List.all_eq_true]
  exact fun a ha => (List.mem_filter.mp ha).2

theorem le_foldl_max {α : Type} (m : List (Int × α)) (a : Int) :
    a ≤ m.foldl (fun b p => max b p.1) a := by
  induction m generalizing a with
  | nil => simp
  | cons p t ih =>
    simp only [List.foldl_cons]
    exact le_trans (le_max_left a p.1) (ih (max a p.1))

theorem mem_le_foldl_max {α : Type} {m : List (Int × α)} {p : Int × α}
    (h : p ∈ m) (a : Int) : p.1 ≤ m.foldl (fun b q => max b q.1) a := by
  induction m generalizing a with
  | nil => cases h
  | cons q t ih =>
    simp only [List.foldl_cons]
    rcases List.mem_cons.mp h with rfl | h2
    · exact le_trans (le_max_right a p.1) (le_foldl_max t _)
    · exact ih h2 _

theorem freshId_not_mem {α : Type} {m : List (Int × α)} {p : Int × α} (h : p ∈ m) :
    p.1 ≠ freshId m := by
  have := mem_le_foldl_max h 0
  unfold freshId
  omega

theorem lookupD_append_fresh {α : Type} (m : List (Int × α)) (k : Int) (v : α)
    (hk : ∀ p ∈ m, p.1 ≠ k) : lookupD (m ++ [(k, v)]) k = some v := by
  induction m with
  | nil => simp [lookupD]
  | cons q t ih =>
    have hq : q.1 ≠ k := hk q (List.mem_cons_self q t)
    simp only [List.cons_append, lookupD, if_neg hq]
    exact ih (fun p hp => hk p (List.mem_cons_of_mem _ hp))

/-! ### Case analyses and frame lemmas for the handlers -/

theorem create_record_ok_eq {s : AppState} {d : List (String × Json)} {now : String}
    {r : Rec} {s2 : AppState} (h : create_record s d now = (.ok r, s2)) :
    r.id = s.next_record_id ∧
      s2.records = s.records ++ [(s.next_record_id, r)] ∧
      s2.next_record_id = s.next_record_id + 1 := by
  unfold create_record at h
  split at h
  · split at h
    · split at h
      · split at h
        · simp only [Prod.mk.injEq, Except.ok.injEq] at h
          obtain ⟨hr, hs⟩ := h
          subst hr
          subst hs
          exact ⟨rfl, rfl, rfl⟩
        · simp at h
      · simp at h
    · simp at h
  · simp at h

theorem create_record_err_eq {s : AppState} {d : List (String × Json)} {now : String}
    {e : Err} {s2 : AppState} (h : create_record s d now = (.error e, s2)) :
    s2 = s := by
  unfold create_record at h
  split at h
  · split at h
    · split at h
      · split at h
        · simp at h
        · simp only [Prod.mk.injEq] at h
          exact h.2.symm
      · simp only [Prod.mk.injEq] at h
        exact h.2.symm
    · simp only [Prod.mk.injEq] at h
      exact h.2.symm
  · simp only [Prod.mk.injEq] at h
    exact h.2.symm

theorem create_user_frame (s : AppState) (d : List (String × Json)) :
    (create_user s d).2.records = s.records ∧
      (create_user s d).2.next_record_id = s.next_record_id := by
  unfold create_user
  split
  · exact ⟨rfl, rfl⟩
  · split
    · exact ⟨rfl, rfl⟩
    · exact ⟨rfl, rfl⟩

theorem create_category_frame (s : AppState) (d : List (String × Json)) :
    (create_category s d).2.records = s.records ∧
      (create_category s d).2.next_record_id = s.next_record_id := by
  unfold create_category
  split
  · exact ⟨rfl, rfl⟩
  · split
    · split
      · exact ⟨rfl, rfl⟩
      · exact ⟨rfl, rfl⟩
    · exact ⟨rfl, rfl⟩

theorem delete_user_frame (s : AppState) (uid : Int) :
    ((delete_user s uid).2.records = s.records ∨
      (delete_user s uid).2.records =
        s.records.filter (fun p => !(pyEqInt p.2.user_id uid))) ∧
      (delete_user s uid).2.next_record_id = s.next_record_id := by
  unfold delete_user
  split
  · exact ⟨Or.inl rfl, rfl⟩
  · exact ⟨Or.inr rfl, rfl⟩

theorem delete_category_frame (s : AppState) (cid : Option Int) :
    ((delete_category s cid).2.records = s.records ∨
      ∃ c, (delete_category s cid).2.records =
        s.records.filter (fun p => !(pyEqInt p.2.category_id c))) ∧
      (delete_category s cid).2.next_record_id = s.next_record_id := by
  unfold delete_category
  split
  · exact ⟨Or.inl rfl, rfl⟩
  · unfold delete_category_byid
    split
    · exact ⟨Or.inl rfl, rfl⟩
    · exact ⟨Or.inr ⟨_, rfl⟩, rfl⟩

theorem delete_record_frame (s : AppState) (rid : Int) :
    ((delete_record s rid).2.records = s.records ∨
      (delete_record s rid).2.records = eraseD s.records rid) ∧
      (delete_record s rid).2.next_record_id = s.next_record_id := by
  unfold delete_record
  split
  · exact ⟨Or.inr rfl, rfl⟩
  · exact ⟨Or.inl rfl, rfl⟩

theorem next_le_stepOp (s : AppState) (op : Op) :
    s.next_record_id ≤ (stepOp s op).next_record_id := by
  cases op with
  | createUser d => simp [stepOp, (create_user_frame s d).2]
  | deleteUser i => simp [stepOp, (delete_user_frame s i).2]
  | createCategory d => simp [stepOp, (create_category_frame s d).2]
  | deleteCategory i => simp [stepOp, (delete_category_frame s i).2]
  | listCategories => simp [stepOp, list_categories]
  | deleteRecord i => simp [stepOp, (delete_record_frame s i).2]
  | createRecord d now =>
    rcases hcr : create_record s d now with ⟨res, s2⟩
    cases res with
    | ok r =>
      have h := (create_record_ok_eq hcr).2.2
      simp only [stepOp, hcr]
      omega
    | error e =>
      have h := create_record_err_eq hcr
      simp [stepOp, hcr, h]

theorem recInv_stepOp {s : AppState} (op : Op) (h : RecInv s) : RecInv (stepOp s op) := by
  cases op with
  | createUser d =>
    intro p hp
    rw [stepOp, (create_user_frame s d).1] at hp
    rw [stepOp, (create_user_frame s d).2]
    exact h p hp
  | createCategory d =>
    intro p hp
    rw [stepOp, (create_category_frame s d).1] at hp
    rw [stepOp, (create_category_frame s d).2]
    exact h p hp
  | listCategories =>
    intro p hp
    exact h p hp
  | deleteUser i =>
    intro p hp
    rw [stepOp, (delete_user_frame s i).2]
    rw [stepOp] at hp
    rcases (delete_user_frame s i).1 with hrec | hrec <;> rw [hrec] at hp
    · exact h p hp
    · exact h p (List.mem_filter.mp hp).1
  | deleteCategory i =>
    intro p hp
    rw [stepOp, (delete_category_frame s i).2]
    rw [stepOp] at hp
    rcases (delete_category_frame s i).1 with hrec | ⟨c, hrec⟩ <;> rw [hrec] at hp
    · exact h p hp
    · exact h p (List.mem_filter.mp hp).1
  | deleteRecord i =>
    intro p hp
    rw [stepOp, (delete_record_frame s i).2]
    rw [stepOp] at hp
    rcases (delete_record_frame s i).1 with hrec | hrec <;> rw [hrec] at hp
    · exact h p hp
    · exact h p (mem_eraseD hp)
  | createRecord d now =>
    intro p hp
    rcases hcr : create_record s d now with ⟨res, s2⟩
    rw [stepOp, hcr] at hp
    rw [stepOp, hcr]
    cases res with
    | error e =>
      rw [create_record_err_eq hcr] at hp ⊢
      exact h p hp
    | ok r =>
      obtain ⟨hid, hrec, hnext⟩ := create_record_ok_eq hcr
      rw [hrec] at hp
      rw [hnext]
      rcases List.mem_append.mp hp with hold | hnew
      · obtain ⟨h1, h2⟩ := h p hold
        exact ⟨h1, by omega⟩
      · rcases List.mem_singleton.mp hnew with rfl
        refine ⟨hid, ?_⟩
        show r.id < s.next_record_id + 1
        omega

theorem assignedIds_sorted_aux (ops : List Op) : ∀ s : AppState,
    (∀ a ∈ assignedIds s ops, s.next_record_id ≤ a) ∧
      List.Pairwise (fun a b => a < b) (assignedIds s ops) := by
  induction ops with
  | nil => intro s; simp [assignedIds]
  | cons op t ih =>
    intro s
    have hmono := next_le_stepOp s op
    have htail := ih (stepOp s op)
    have hempty : assignedOf s op = [] →
        (∀ a ∈ assignedIds s (op :: t), s.next_record_id ≤ a) ∧
          List.Pairwise (fun a b => a < b) (assignedIds s (op :: t)) := by
      intro he
      rw [assignedIds, he, List.nil_append]
      refine ⟨fun a ha => ?_, htail.2⟩
      have := htail.1 a ha
      omega
    cases op with
    | createUser d => exact hempty rfl
    | deleteUser i => exact hempty rfl
    | createCategory d => exact hempty rfl
    | deleteCategory i => exact hempty rfl
    | listCategories => exact hempty rfl
    | deleteRecord i => exact hempty rfl
    | createRecord d now =>
      rcases hcr : create_record s d now with ⟨res, s2⟩
      have hstep : stepOp s (.createRecord d now) = s2 := by
        rw [stepOp, hcr]
      rw [hstep] at htail
      cases res with
      | ok r =>
        obtain ⟨hid, hrec, hnext⟩ := create_record_ok_eq hcr
        have heq : assignedIds s (.createRecord d now :: t) =
            r.id :: assignedIds s2 t := by
          rw [assignedIds, assignedOf, hcr, hstep]
          rfl
        rw [heq]
        rw [hnext] at htail
        constructor
        · intro a ha
          rcases List.mem_cons.mp ha with rfl | ha2
          · omega
          · have := htail.1 a ha2
            omega
        · refine List.pairwise_cons.mpr ⟨?_, htail.2⟩
          intro a ha
          have := htail.1 a ha
          omega
      | error e =>
        have hs2 : s2 = s := create_record_err_eq hcr
        have heq : assignedIds s (.createRecord d now :: t) = assignedIds s2 t := by
          rw [assignedIds, assignedOf, hcr, hstep]
          rfl
        rw [hs2] at htail
        rw [heq, hs2]
        exact htail

/-! ### Concrete states used by the witnesses -/

/-- `POST /user {"name": "Al"}`. -/
def exOp1 : Op := .createUser [("name", Json.str "Al")]

/-- `POST /category {"name": "Food"}`. -/
def exOp2 : Op := .createCategory [("name", Json.str "Food")]

/-- `POST /record {"user_id": 1, "category_id": 1, "amount": "12.50"}`. -/
def exOp3 : Op := .createRecord
  [("user_id", Json.num 1), ("category_id", Json.num 1), ("amount", Json.str "12.50")]
  "2024-01-01T00:00:00+00:00"

/-- The state after creating one user, one category and one record. -/
def exState : AppState := stepOp (stepOp (stepOp initState exOp1) exOp2) exOp3

/-! ### The claims -/

/-- C1: deleting a User removes that User and every Record whose `user_id`
equals the deleted id, and deleting a Category removes that Category and
every Record whose `category_id` equals the deleted id; after the delete
returns, no Record referencing the deleted entity remains in the store, for
every store state and every existing id. -/
theorem delete_cascades (s : AppState) (uid cid : Int)
    (hu : (lookupD s.dbUsers uid).isSome = true)
    (hc : (lookupD s.dbCategories cid).isSome = true) :
    ((delete_user s uid).1 = .ok "deleted" ∧
      lookupD (delete_user s uid).2.dbUsers uid = none ∧
      lookupD (delete_user s uid).2.users uid = none ∧
      noUserRefs (delete_user s uid).2.records uid = true) ∧
    ((delete_category s (some cid)).1 = .ok "deleted" ∧
      lookupD (delete_category s (some cid)).2.dbCategories cid = none ∧
      lookupD (delete_category s (some cid)).2.categories cid = none ∧
      noCatRefs (delete_category s (some cid)).2.records cid = true) := by
  obtain ⟨nu, hnu⟩ := Option.isSome_iff_exists.mp hu
  obtain ⟨nc, hnc⟩ := Option.isSome_iff_exists.mp hc
  constructor
  · unfold delete_user
    rw [hnu]
    exact ⟨rfl, lookupD_eraseD_self _ _, lookupD_eraseD_self _ _,
      all_filter_self _ _⟩
  · have hred : delete_category s (some cid) = delete_category_byid s cid := rfl
    rw [hred]
    unfold delete_category_byid
    rw [hnc]
    exact ⟨rfl, lookupD_eraseD_self _ _, lookupD_eraseD_self _ _,
      all_filter_self _ _⟩

/-- Witness for C1 at the concrete reachable state with one user, one
category and one record referencing both. -/
theorem delete_cascades_witness :
    ((delete_user exState 1).1 = .ok "deleted" ∧
      lookupD (delete_user exState 1).2.dbUsers 1 = none ∧
      lookupD (delete_user exState 1).2.users 1 = none ∧
      noUserRefs (delete_user exState 1).2.records 1 = true) ∧
    ((delete_category exState (some 1)).1 = .ok "deleted" ∧
      lookupD (delete_category exState (some 1)).2.dbCategories 1 = none ∧
      lookupD (delete_category exState (some 1)).2.categories 1 = none ∧
      noCatRefs (delete_category exState (some 1)).2.records 1 = true) :=
  delete_cascades exState 1 1 (by decide) (by decide)

/-- C3: for every store state already containing a Category whose (truthy)
name equals the requested name, `create_category` fails with the conflict
error and the state, in particular the set of stored categories, is
unchanged. -/
theorem create_category_conflict (s : AppState) (data : List (String × Json))
    (N : Json) (hget : getJ data "name" = some N) (ht : pyTruthy N = true)
    (hex : catNameExists s N = true) :
    create_category s data = (.error (400, "Category with this name already exists"), s) := by
  unfold create_category
  rw [hget]
  simp [ht, hex]

/-- Witness for C3: creating "Food" twice. -/
theorem create_category_conflict_witness :
    create_category (stepOp (stepOp initState exOp1) exOp2)
        [("name", Json.str "Food")] =
      (.error (400, "Category with this name already exists"),
        stepOp (stepOp initState exOp1) exOp2) :=
  create_category_conflict _ _ (Json.str "Food") rfl (by decide) (by decide)

/-- C6: deleting an id absent from the store fails with 404 and leaves the
store unchanged, for `delete_user`, `delete_category` and `delete_record`;
hence deleting the same non-existent id twice returns 404 both times. -/
theorem delete_missing_404 (s : AppState) (uid cid rid : Int)
    (hu : lookupD s.dbUsers uid = none)
    (hc : lookupD s.dbCategories cid = none)
    (hr : lookupD s.records rid = none) :
    delete_user s uid = (.error (404, "User not found"), s) ∧
    delete_user (delete_user s uid).2 uid = (.error (404, "User not found"), s) ∧
    delete_category s (some cid) = (.error (404, "Category not found"), s) ∧
    delete_category (delete_category s (some cid)).2 (some cid) =
      (.error (404, "Category not found"), s) ∧
    delete_record s rid = (.error (404, "Record not found"), s) ∧
    delete_record (delete_record s rid).2 rid =
      (.error (404, "Record not found"), s) := by
  have h1 : delete_user s uid = (.error (404, "User not found"), s) := by
    unfold delete_user
    rw [hu]
  have h2 : delete_category s (some cid) = (.error (404, "Category not found"), s) := by
    have hred : delete_category s (some cid) = delete_category_byid s cid := rfl
    rw [hred]
    unfold delete_category_byid
    rw [hc]
  have h3 : delete_record s rid = (.error (404, "Record not found"), s) := by
    unfold delete_record
    simp [memD, hr]
  refine ⟨h1, ?_, h2, ?_, h3, ?_⟩
  · rw [h1]
    exact h1
  · rw [h2]
    exact h2
  · rw [h3]
    exact h3

/-- Witness for C6: ids 99 are absent from the concrete state. -/
theorem delete_missing_404_witness :
    delete_user exState 99 = (.error (404, "User not found"), exState) ∧
    delete_user (delete_user exState 99).2 99 =
      (.error (404, "User not found"), exState) ∧
    delete_category exState (some 99) = (.error (404, "Category not found"), exState) ∧
    delete_category (delete_category exState (some 99)).2 (some 99) =
      (.error (404, "Category not found"), exState) ∧
    delete_record exState 99 = (.error (404, "Record not found"), exState) ∧
    delete_record (delete_record exState 99).2 99 =
      (.error (404, "Record not found"), exState) :=
  delete_missing_404 exState 99 99 99 (by decide) (by decide) (by decide)

theorem get_user_found {s : AppState} {uid : Int} {nm : Json}
    (h : lookupD s.dbUsers uid = some nm) : get_user s uid = .ok (uid, nm) := by
  unfold get_user
  rw [h]

/-- C7: creating a User with a non-empty name and then fetching the returned
id yields exactly the returned `{id, name}` pair. -/
theorem create_then_get_user (s : AppState) (data : List (String × Json))
    (n : String) (hget : getJ data "name" = some (.str n)) (hn : n ≠ "") :
    (create_user s data).1 = .ok (freshId s.dbUsers, .str n) ∧
    get_user (create_user s data).2 (freshId s.dbUsers) =
      .ok (freshId s.dbUsers, .str n) := by
  have ht : pyTruthy (.str n) = true := by simp [pyTruthy, hn]
  unfold create_user
  rw [hget]
  simp only [ht, if_true]
  exact ⟨trivial, get_user_found (lookupD_append_fresh _ _ _ (fun p hp => freshId_not_mem hp))⟩

/-- Witness for C7: create "Al" in the fresh state and fetch id 1. -/
theorem create_then_get_user_witness :
    (create_user initState [("name", Json.str "Al")]).1 =
      .ok (freshId initState.dbUsers, .str "Al") ∧
    get_user (create_user initState [("name", Json.str "Al")]).2
        (freshId initState.dbUsers) =
      .ok (freshId initState.dbUsers, .str "Al") :=
  create_then_get_user initState [("name", Json.str "Al")] "Al" rfl (by decide)

/-- C2: for every store state and every create-record request supplying
`user_id`, `category_id` and `amount` whose `user_id` does not reference an
existing User, `create_record` fails with the reference error (HTTP 400) and
the state — in particular the record map and the next-record-id counter — is
unchanged: no Record is stored and no Record id is allocated. -/
theorem create_record_dangling_user (s : AppState) (data : List (String × Json))
    (now : String)
    (h1 : hasK data "user_id" = true) (h2 : hasK data "category_id" = true)
    (h3 : hasK data "amount" = true)
    (hu : pyMemInt s.users ((getJ data "user_id").getD .null) = false) :
    create_record s data now = (.error (400, "User does not exist"), s) := by
  have hm : missingFields data = [] := by
    simp [missingFields, required_fields, h1, h2, h3]
  unfold create_record
  rw [hm]
  simp [hu]

/-- Witness for C2: user id 99 does not exist in the concrete state. -/
theorem create_record_dangling_user_witness :
    create_record exState
        [("user_id", Json.num 99), ("category_id", Json.num 1),
          ("amount", Json.str "5")] "T" =
      (.error (400, "User does not exist"), exState) :=
  create_record_dangling_user exState _ "T" (by decide) (by decide) (by decide)
    (by decide)

/-- C4: `list_records` fails with HTTP 400 when neither filter is supplied;
when at least one is supplied it returns exactly the stored records matching
all supplied filters: a record is in the result iff it is stored and matches
every given filter. -/
theorem list_records_filters (s : AppState) (uf cf : Option Int) :
    (uf = none → cf = none → list_records s uf cf =
      .error (400,
        "At least one of \x27user_id\x27 or \x27category_id\x27 must be provided")) ∧
    (uf ≠ none ∨ cf ≠ none → list_records s uf cf = .ok (resultList s uf cf)) ∧
    (∀ r : Rec, r ∈ resultList s uf cf ↔
      r ∈ s.records.map Prod.snd ∧ matchFilter uf r.user_id = true ∧
        matchFilter cf r.category_id = true) := by
  refine ⟨?_, ?_, ?_⟩
  · rintro rfl rfl
    rfl
  · intro h
    match uf, cf with
    | none, none => rcases h with h | h <;> exact absurd rfl h
    | some u, none => rfl
    | none, some c => rfl
    | some u, some c => rfl
  · intro r
    simp [resultList, List.mem_filter]

/-- Witness for C4 at the concrete state (filter `user_id=1`). -/
theorem list_records_filters_witness :
    (list_records exState none none =
      .error (400,
        "At least one of \x27user_id\x27 or \x27category_id\x27 must be provided")) ∧
    (list_records exState (some 1) none = .ok (resultList exState (some 1) none)) ∧
    (mkRec (stepOp (stepOp initState exOp1) exOp2)
          [("user_id", Json.num 1), ("category_id", Json.num 1),
            ("amount", Json.str "12.50")] "2024-01-01T00:00:00+00:00" (25 / 2) ∈
        resultList exState (some 1) none ↔
      mkRec (stepOp (stepOp initState exOp1) exOp2)
          [("user_id", Json.num 1), ("category_id", Json.num 1),
            ("amount", Json.str "12.50")] "2024-01-01T00:00:00+00:00" (25 / 2) ∈
          exState.records.map Prod.snd ∧
        matchFilter (some 1) (mkRec (stepOp (stepOp initState exOp1) exOp2)
          [("user_id", Json.num 1), ("category_id", Json.num 1),
            ("amount", Json.str "12.50")] "2024-01-01T00:00:00+00:00" (25 / 2)).user_id = true ∧
        matchFilter none (mkRec (stepOp (stepOp initState exOp1) exOp2)
          [("user_id", Json.num 1), ("category_id", Json.num 1),
            ("amount", Json.str "12.50")] "2024-01-01T00:00:00+00:00" (25 / 2)).category_id = true) :=
  ⟨(list_records_filters exState none none).1 rfl rfl,
    (list_records_filters exState (some 1) none).2.1 (Or.inl (by simp)),
    (list_records_filters exState (some 1) none).2.2 _⟩

/-- C5: `create_record` validates in the order presence of the required
fields, then existence of the referenced User, then existence of the
referenced Category, then numeric format of `amount`; in particular a
request with a dangling `user_id` gets the reference error whatever its
`amount` is, so never the amount-format error. -/
theorem create_record_validation_order (s : AppState)
    (data : List (String × Json)) (now : String) :
    (missingFields data ≠ [] → create_record s data now =
      (.error (400, "Missing fields: " ++ joinComma (missingFields data)), s)) ∧
    (missingFields data = [] →
      pyMemInt s.users ((getJ data "user_id").getD .null) = false →
      create_record s data now = (.error (400, "User does not exist"), s)) ∧
    (missingFields data = [] →
      pyMemInt s.users ((getJ data "user_id").getD .null) = true →
      pyMemInt s.categories ((getJ data "category_id").getD .null) = false →
      create_record s data now = (.error (400, "Category does not exist"), s)) ∧
    (missingFields data = [] →
      pyMemInt s.users ((getJ data "user_id").getD .null) = true →
      pyMemInt s.categories ((getJ data "category_id").getD .null) = true →
      pyFloat ((getJ data "amount").getD .null) = none →
      create_record s data now =
        (.error (400, "Field \x27amount\x27 must be a number"), s)) := by
  refine ⟨?_, ?_, ?_, ?_⟩
  · intro hm
    unfold create_record
    rw [if_neg hm]
  · intro hm hu
    unfold create_record
    rw [hm]
    simp [hu]
  · intro hm hu hc
    unfold create_record
    rw [hm]
    simp [hu, hc]
  · intro hm hu hc ha
    unfold create_record
    rw [hm]
    simp [hu, hc, ha]

/-- Witness for C5: with a dangling `user_id` and a non-numeric `amount`,
the error is the reference error. -/
theorem create_record_validation_order_witness :
    create_record exState
        [("user_id", Json.num 99), ("category_id", Json.num 1),
          ("amount", Json.str "abc")] "T" =
      (.error (400, "User does not exist"), exState) :=
  (create_record_validation_order exState _ "T").2.1 (by decide) (by decide)

/-- C8: record ids are never reused within a process lifetime: along every
sequence of API calls from a fresh process, the ids assigned by the
successful `create_record` calls, in chronological order, are strictly
increasing — each is strictly greater than every record id assigned earlier,
including ids of records deleted since. -/
theorem record_ids_never_reused (ops : List Op) :
    List.Pairwise (fun a b => a < b) (assignedIds initState ops) :=
  (assignedIds_sorted_aux ops initState).2

/-- C9: in every reachable state, each stored record is keyed by its own
`id` field and that id is strictly below the next-record-id counter; every
operation preserves this invariant. -/
theorem record_store_invariant {s : AppState} (h : Reachable s) : RecInv s := by
  induction h with
  | init => intro p hp; cases hp
  | next op hs ih => exact recInv_stepOp op ih

/-- Witness for C9 at the concrete reachable state with one record. -/
theorem record_store_invariant_witness : RecInv exState :=
  record_store_invariant
    (Reachable.next exOp3 (Reachable.next exOp2 (Reachable.next exOp1 Reachable.init)))

/-- C10: when `create_record` succeeds and the supplied `created_at` is
absent or falsy (for example the empty string), the stored record's
`created_at` is the current time string; the supplied falsy value is never
stored. -/
theorem created_at_falsy_defaults (s : AppState) (data : List (String × Json))
    (now : String) (q : ℚ)
    (hm : missingFields data = [])
    (hu : pyMemInt s.users ((getJ data "user_id").getD .null) = true)
    (hc : pyMemInt s.categories ((getJ data "category_id").getD .null) = true)
    (ha : pyFloat ((getJ data "amount").getD .null) = some q)
    (hca : getJ data "created_at" = none ∨
      ∃ v, getJ data "created_at" = some v ∧ pyTruthy v = false) :
    (create_record s data now).1 = .ok (mkRec s data now q) ∧
      (mkRec s data now q).created_at = .str now := by
  constructor
  · unfold create_record
    rw [hm]
    simp [hu, hc, ha]
  · unfold mkRec
    rcases hca with h | ⟨v, hv, hf⟩
    · simp [h]
    · simp [hv, hf]

/-- Witness for C10: `created_at` supplied as the empty string. -/
theorem created_at_falsy_defaults_witness :
    (create_record exState
        [("user_id", Json.num 1), ("category_id", Json.num 1),
          ("amount", Json.num 7), ("created_at", Json.str "")] "T1").1 =
      .ok (mkRec exState
        [("user_id", Json.num 1), ("category_id", Json.num 1),
          ("amount", Json.num 7), ("created_at", Json.str "")] "T1" 7) ∧
    (mkRec exState
        [("user_id", Json.num 1), ("category_id", Json.num 1),
          ("amount", Json.num 7), ("created_at", Json.str "")] "T1" 7).created_at =
      .str "T1" :=
  created_at_falsy_defaults exState _ "T1" 7 (by decide) (by decide) (by decide)
    (by decide) (Or.inr ⟨Json.str "", rfl, rfl⟩)

end LR3
